import Mathlib

/-!
Verification of the devs webhook scheduler (packages/webhook/devs_webhook):
a shallow embedding of `core/container_pool.py`, `cli/worker.py` and the
relevant parts of `core/claude_dispatcher.py` and `github/models.py`,
together with theorems settling the specification claims about dispatch,
per-slot FIFO execution, repository-cache recovery, subprocess supervision,
idle reclamation and the worker wire contract.
-/

namespace DevsWebhook

/-- Embeds the fields of `WebhookEvent` (github/models.py) that the pool and
dispatcher consult: the `is_test` flag (models.py line 76) and the
repository full name. All other payload fields are opaque to the scheduler. -/
structure WebhookEvent where
  is_test : Bool
  repo_full_name : String
deriving Repr, DecidableEq

/-- Embeds `QueuedTask` (container_pool.py lines 26-31). -/
structure QueuedTask where
  task_id : String
  repo_name : String
  task_description : String
  event : WebhookEvent
deriving Repr, DecidableEq

/-- Embeds `DevsOptions` (github/models.py lines 282-285). The pydantic
model declares exactly two fields, `default_branch` defaulting to "main"
and `prompt_extra` defaulting to "". -/
structure DevsOptions where
  default_branch : String := "main"
  prompt_extra : String := ""
deriving Repr, DecidableEq

/-- A scalar value in a parsed DEVS.yml document (yaml.safe_load result). -/
inductive YamlVal where
  | str (s : String)
  | bool (b : Bool)
deriving Repr, DecidableEq

/-- A parsed DEVS.yml document: the top-level mapping as an association
list (yaml.safe_load of the file contents). -/
abbrev YamlDoc := List (String × YamlVal)

/-- String value of a looked-up YAML key, when present and a string.
Python assigns `data[key]` without type validation; every consulted key in
the configuration of the repository and tests is string-valued, which is what
this helper covers. -/
def yamlStr (doc : YamlDoc) (key : String) : Option String :=
  match doc.lookup key with
  | some (YamlVal.str s) => some s
  | _ => none

/-- Embeds the DEVS.yml parsing tail of
`ContainerPool._ensure_repository_cloned` (container_pool.py lines
473-498): start from the `DevsOptions()` defaults, then overwrite
`default_branch` and `prompt_extra` when those keys are present in the
document.  No other key is consulted.  `none` models an absent file, an
empty document, or a parse error (all of which leave the defaults). -/
def parseDevsYml (doc : Option YamlDoc) : DevsOptions :=
  match doc with
  | none => {}
  | some data =>
    let o : DevsOptions := {}
    let o := match yamlStr data "default_branch" with
      | some s => { o with default_branch := s }
      | none => o
    match yamlStr data "prompt_extra" with
      | some s => { o with prompt_extra := s }
      | none => o

/-- Environment of one `_ensure_repository_cloned` call: whether the local
copy exists on entry, and whether the `git pull` and `git clone`
subprocesses would exit 0. -/
structure GitEnv where
  repoExists : Bool
  pullOk : Bool
  cloneOk : Bool
  devsYml : Option YamlDoc

/-- Filesystem/git side effects performed by `_ensure_repository_cloned`. -/
inductive GitEffect where
  | gitPull
  | rmtree
  | gitClone
deriving Repr, DecidableEq

/-- Embeds `ContainerPool._ensure_repository_cloned` (container_pool.py
lines 333-498).  If the path exists, pull; on pull failure remove the
directory (shutil.rmtree) and fall through.  If the path does not exist
(either initially or after removal), clone; a failed clone raises, which
propagates to the caller.  On success the DEVS.yml options are parsed and
returned.  The result pairs the returned value (or propagated error) with
the ordered list of git effects. -/
def ensureRepositoryCloned (g : GitEnv) : Except String DevsOptions × List GitEffect :=
  let (existsNow, effs) :=
    if g.repoExists then
      if g.pullOk then (true, [GitEffect.gitPull])
      else (false, [GitEffect.gitPull, GitEffect.rmtree])
    else (false, [])
  if existsNow then
    (Except.ok (parseDevsYml g.devsYml), effs)
  else
    if g.cloneOk then
      (Except.ok (parseDevsYml g.devsYml), effs ++ [GitEffect.gitClone])
    else
      (Except.error "Git clone failed", effs ++ [GitEffect.gitClone])

/-- Boolean success test for an `Except` result. -/
def exceptOk {ε α : Type} : Except ε α → Bool
  | Except.ok _ => true
  | Except.error _ => false

/-- The per-slot queues of the pool: slot name to its queued tasks, front
of the list dequeued first (`self.container_queues`, container_pool.py
line 48).  A slot absent from the association list has an empty queue. -/
abbrev QueuesMap := List (String × List QueuedTask)

/-- Queue contents of one slot (`self.container_queues[dev_name]`). -/
def queueOf (qs : QueuesMap) (dev : String) : List QueuedTask :=
  (List.lookup dev qs).getD []

/-- Queue depth of one slot (`self.container_queues[dev_name].qsize()`). -/
def qsizeOf (qs : QueuesMap) (dev : String) : Nat :=
  (queueOf qs dev).length

/-- Append a task to the back of the queue of one slot
(`await self.container_queues[best_container].put(queued_task)`). -/
def enqueueTask (qs : QueuesMap) (dev : String) (t : QueuedTask) : QueuesMap :=
  match qs with
  | [] => [(dev, [t])]
  | (d, l) :: rest =>
    if d = dev then (d, l ++ [t]) :: rest else (d, l) :: enqueueTask rest dev t

/-- Embeds the selection loop of `ContainerPool.queue_task`
(container_pool.py lines 85-93): iterate over the configured pool list
keeping the first slot whose queue size is strictly below the running
minimum.  The accumulator is `(best_container, min_queue_size)`, where
`none` for the size models the initial float infinity. -/
def selectLoop (q : String → Nat) : List String → Option String × Option Nat → Option String × Option Nat
  | [], acc => acc
  | d :: rest, (best, minSize) =>
    let takeIt := match minSize with
      | none => true
      | some m => q d < m
    if takeIt then selectLoop q rest (some d, some (q d))
    else selectLoop q rest (best, minSize)

/-- The slot `queue_task` selects for a new task, given the configured
pool list and the current queue sizes (`best_container` after the loop at
container_pool.py lines 85-93). -/
def selectBestContainer (pool : List String) (q : String → Nat) : Option String :=
  (selectLoop q pool (none, none)).1

/-- Embeds `ContainerPool.queue_task` (container_pool.py lines 66-122):
pick the slot with the shortest queue and enqueue the task there,
returning `true`; return `false` when the pool list is empty
(`best_container is None`).  The repository name and its options play no
part in the selection: the function has no affinity table to consult. -/
def queueTask (pool : List String) (qs : QueuesMap) (t : QueuedTask) : Bool × QueuesMap :=
  match selectBestContainer pool (qsizeOf qs) with
  | none => (false, qs)
  | some c => (true, enqueueTask qs c t)

/-- Recursive core of the selection loop once a first candidate has been
taken: `best2 q b l` is the final `best_container` when the loop has
already committed to `b` and `l` remains to scan. -/
def best2 (q : String → Nat) (b : String) : List String → String
  | [] => b
  | d :: rest => if q d < q b then best2 q d rest else best2 q b rest

theorem selectLoop_committed (q : String → Nat) (l : List String) (b : String) :
    selectLoop q l (some b, some (q b)) = (some (best2 q b l), some (q (best2 q b l))) := by
  induction l generalizing b with
  | nil => simp [selectLoop, best2]
  | cons d rest ih =>
    by_cases h : q d < q b
    · simp [selectLoop, best2, h, ih]
    · simp [selectLoop, best2, h, ih]

theorem selectBestContainer_cons (q : String → Nat) (d : String) (l : List String) :
    selectBestContainer (d :: l) q = some (best2 q d l) := by
  simp [selectBestContainer, selectLoop, selectLoop_committed]

theorem best2_mem (q : String → Nat) (l : List String) (b : String) :
    best2 q b l ∈ b :: l := by
  induction l generalizing b with
  | nil => simp [best2]
  | cons d rest ih =>
    by_cases h : q d < q b
    · simp only [best2, if_pos h]
      have := ih d
      simp only [List.mem_cons] at this ⊢
      tauto
    · simp only [best2, if_neg h]
      have := ih b
      simp only [List.mem_cons] at this ⊢
      tauto

theorem best2_min (q : String → Nat) (l : List String) (b : String) :
    ∀ x ∈ b :: l, q (best2 q b l) ≤ q x := by
  induction l generalizing b with
  | nil =>
    intro x hx
    simp only [List.mem_cons, List.not_mem_nil, or_false] at hx
    simp [best2, hx]
  | cons d rest ih =>
    intro x hx
    simp only [List.mem_cons] at hx
    by_cases h : q d < q b
    · simp only [best2, if_pos h]
      rcases hx with h1 | h2 | h3
      · rw [h1]
        have hd := ih d d (by simp)
        omega
      · exact ih d x (by simp [h2])
      · exact ih d x (by simp [h3])
    · simp only [best2, if_neg h]
      rcases hx with h1 | h2 | h3
      · exact ih b x (by simp [h1])
      · rw [h2]
        have hb := ih b b (by simp)
        have hbd : q b ≤ q d := Nat.le_of_not_lt h
        omega
      · exact ih b x (by simp [h3])

theorem best2_find (q : String → Nat) (l : List String) (b : String) :
    (b :: l).find? (fun d => q d == q (best2 q b l)) = some (best2 q b l) := by
  induction l generalizing b with
  | nil => simp [best2]
  | cons d rest ih =>
    by_cases h : q d < q b
    · simp only [best2, if_pos h]
      have hmin : q (best2 q d rest) ≤ q d := best2_min q rest d d (by simp)
      have hbf : (q b == q (best2 q d rest)) = false := by
        simp only [beq_eq_false_iff_ne, ne_eq]
        omega
      simp only [List.find?, hbf]
      exact ih d
    · simp only [best2, if_neg h]
      have hcb : q (best2 q b rest) ≤ q b := best2_min q rest b b (by simp)
      by_cases hb : q b = q (best2 q b rest)
      · have h1 : (q b == q (best2 q b rest)) = true := beq_iff_eq.mpr hb
        have hih := ih b
        simp only [List.find?, h1] at hih ⊢
        exact hih
      · have h1 : (q b == q (best2 q b rest)) = false := by
          simp only [beq_eq_false_iff_ne, ne_eq]
          exact hb

        have h2 : (q d == q (best2 q b rest)) = false := by
          simp only [beq_eq_false_iff_ne, ne_eq]
          intro heq
          have hbd : q b ≤ q d := Nat.le_of_not_lt h
          omega
        have hih := ih b
        simp only [List.find?, h1] at hih
        simp only [List.find?, h1, h2]
        exact hih

/-- Observable events of one slot worker: entering and leaving the
subprocess exchange for a task. -/
inductive SlotEv where
  | start (t : QueuedTask)
  | finish (t : QueuedTask)
deriving Repr, DecidableEq

/-- Embeds the loop of `ContainerPool._container_worker` (container_pool.py
lines 134-174) over the tasks the queue of a slot delivers, in FIFO order: the
single worker coroutine awaits `queue.get()`, then fully awaits
`_process_task_subprocess` (the subprocess exchange from launch to exit)
before calling `task_done()` and looping.  Each dequeued task therefore
contributes a start event immediately followed by its finish event. -/
def workerTrace : List QueuedTask → List SlotEv
  | [] => []
  | t :: rest => SlotEv.start t :: SlotEv.finish t :: workerTrace rest

/-- Whether an event opens a subprocess exchange. -/
def isStart : SlotEv → Bool
  | SlotEv.start _ => true
  | SlotEv.finish _ => false

/-- Whether an event closes a subprocess exchange. -/
def isFinish : SlotEv → Bool
  | SlotEv.start _ => false
  | SlotEv.finish _ => true

/-- Number of subprocess exchanges open after a sequence of events: starts
seen minus finishes seen (the per-slot concurrency counter). -/
def inFlight (l : List SlotEv) : Nat :=
  (l.filter isStart).length - (l.filter isFinish).length

theorem workerTrace_get_start (qu : List QueuedTask) (i : Nat) (t : QueuedTask)
    (h : qu[i]? = some t) : (workerTrace qu)[2 * i]? = some (SlotEv.start t) := by
  induction qu generalizing i with
  | nil => simp at h
  | cons a rest ih =>
    cases i with
    | zero =>
      simp only [List.getElem?_cons_zero, Option.some.injEq] at h
      subst h
      simp [workerTrace]
    | succ n =>
      simp only [List.getElem?_cons_succ] at h
      have hrec := ih n h
      have harith : 2 * (n + 1) = 2 * n + 1 + 1 := by omega
      rw [harith]
      simp only [workerTrace, List.getElem?_cons_succ]
      exact hrec

theorem workerTrace_get_finish (qu : List QueuedTask) (i : Nat) (t : QueuedTask)
    (h : qu[i]? = some t) : (workerTrace qu)[2 * i + 1]? = some (SlotEv.finish t) := by
  induction qu generalizing i with
  | nil => simp at h
  | cons a rest ih =>
    cases i with
    | zero =>
      simp only [List.getElem?_cons_zero, Option.some.injEq] at h
      subst h
      simp [workerTrace]
    | succ n =>
      simp only [List.getElem?_cons_succ] at h
      have hrec := ih n h
      have harith : 2 * (n + 1) + 1 = 2 * n + 1 + 1 + 1 := by omega
      rw [harith]
      simp only [workerTrace, List.getElem?_cons_succ]
      exact hrec

theorem inFlight_take_le_one (qu : List QueuedTask) (n : Nat) :
    inFlight ((workerTrace qu).take n) ≤ 1 := by
  induction qu generalizing n with
  | nil => simp [workerTrace, inFlight]
  | cons a rest ih =>
    match n with
    | 0 => simp [inFlight]
    | 1 => simp [workerTrace, inFlight, isStart, isFinish]
    | (m + 2) =>
      have hrec := ih m
      simp only [workerTrace, List.take, inFlight, List.filter, isStart, isFinish] at hrec ⊢
      simp only [List.length_cons]
      omega

/-- Outward side effects of the parent-side task processing. -/
inductive Effect where
  | killProcess
  | postErrorToGitHub (comment : String)
  | stopContainer (dev : String)
  | removeWorkspace (dev : String)
deriving Repr, DecidableEq

/-- JSON object read from the worker subprocess stdout when `json.loads`
succeeds: the fields the parent consults (the output field,
defaulting to the empty string, and the error field). -/
structure ResultJson where
  output : String
  error : Option String
deriving Repr, DecidableEq

/-- The stdout of a finished worker subprocess: the raw text plus the
result of `json.loads` on it (`none` when the text is not valid JSON). -/
structure SubprocStdout where
  raw : String
  parsed : Option ResultJson
deriving Repr, DecidableEq

/-- Outcome of awaiting the worker subprocess under `asyncio.wait_for`:
either the 3600-second timeout fired, or the process exited with a return
code, stdout and stderr. -/
inductive SubprocOutcome where
  | timeout
  | exited (returncode : Int) (stdout : SubprocStdout) (stderr : String)
deriving Repr, DecidableEq

/-- A raised Python exception, by type name and message. -/
structure PyExn where
  exnType : String
  exnMsg : String
deriving Repr, DecidableEq

/-- Python string slicing `s[:n]`: the first `n` code points. -/
def pyTruncate (s : String) (n : Nat) : String :=
  String.mk (s.data.take n)

/-- The timeout message posted by `_process_task_subprocess`
(container_pool.py line 310). -/
def timeoutErrorMessage : String :=
  "Task processing timed out after 60 minutes. The task may have been too complex or encountered an issue."

/-- The parse-failure message posted when exit code is 0 but stdout is not
JSON (container_pool.py line 267), quoting `stdout[:2000]`. -/
def jsonParseFailMessage (raw : String) : String :=
  "Task processing failed: Unable to parse worker output\n\nWorker output (truncated):\n```\n"
    ++ pyTruncate raw 2000 ++ "\n```"

/-- The non-zero-exit message posted by `_process_task_subprocess`
(container_pool.py line 291), quoting `stderr[:2000]`. -/
def exitCodeFailMessage (rc : Int) (errMsg : String) (stderrContent : String) : String :=
  "Task processing failed with exit code " ++ toString rc ++ "\n\nError: " ++ errMsg
    ++ "\n\nStderr output:\n```\n" ++ pyTruncate stderrContent 2000 ++ "\n```"

/-- The message built by the catch-all handler of
`_process_task_subprocess` (container_pool.py line 328). -/
def genericFailMessage (exnType exnMsg : String) : String :=
  "Task processing encountered an error: " ++ exnType ++ "\n\n" ++ exnMsg

/-- The comment body built by `_post_subprocess_error_to_github`
(container_pool.py lines 547-551). -/
def errorComment (m : String) : String :=
  "I encountered an error while processing your request:\n\n" ++ m
    ++ "\n\nPlease check the webhook handler logs for more details, or try mentioning me again."

/-- Embeds `ContainerPool._post_subprocess_error_to_github`
(container_pool.py lines 529-581): test events skip the notification
entirely; otherwise the error comment is posted on the originating
issue/PR thread through the GitHub client, which is the collaborator
boundary and is abstracted as a single post effect.  Failures of the post
itself are caught and logged inside the function and never propagate. -/
def postSubprocessError (t : QueuedTask) (errorMessage : String) : List Effect :=
  if t.event.is_test then [] else [Effect.postErrorToGitHub (errorComment errorMessage)]

/-- Embeds the try-block of `ContainerPool._process_task_subprocess`
(container_pool.py lines 192-313), up to but excluding the catch-all
handler at line 315: ensure the repository (whose failure raises), then
launch the subprocess and supervise the exchange.  On timeout: kill the
process, post the timeout error, and return normally (no raise).  On exit
code 0 with unparseable stdout: post the parse-failure message quoting
`stdout[:2000]`, then raise.  On non-zero exit: post the exit-code
message and return normally.  The result pairs the effects emitted inside
the try-block with the exception escaping it, if any. -/
def processTaskInner (g : GitEnv) (o : SubprocOutcome) (t : QueuedTask) :
    List Effect × Except PyExn Unit :=
  match (ensureRepositoryCloned g).1 with
  | Except.error e => ([], Except.error ⟨"Exception", e⟩)
  | Except.ok _opts =>
    match o with
    | SubprocOutcome.timeout =>
      (Effect.killProcess :: postSubprocessError t timeoutErrorMessage, Except.ok ())
    | SubprocOutcome.exited rc stdout stderr =>
      if rc == 0 then
        match stdout.parsed with
        | some _ => ([], Except.ok ())
        | none =>
          (postSubprocessError t (jsonParseFailMessage stdout.raw),
           Except.error ⟨"Exception", "Subprocess JSON parsing failed"⟩)
      else
        let errMsg := match stdout.parsed with
          | some d => d.error.getD "Unknown subprocess error"
          | none => "Subprocess failed with return code " ++ toString rc
        (postSubprocessError t (exitCodeFailMessage rc errMsg stderr), Except.ok ())

/-- Embeds `ContainerPool._process_task_subprocess` in full
(container_pool.py lines 176-331): the try-block above wrapped in the
catch-all handler, which posts a formatted error for any escaped
exception and swallows it, so the call always returns normally. -/
def processTaskSubprocess (g : GitEnv) (o : SubprocOutcome) (t : QueuedTask) : List Effect :=
  match processTaskInner g o t with
  | (effs, Except.ok ()) => effs
  | (effs, Except.error e) => effs ++ postSubprocessError t (genericFailMessage e.exnType e.exnMsg)

/-- The slot worker loop applied to the sequence of tasks its queue
delivers, each with the environment its processing encounters: per
`_container_worker` (lines 134-174) every task is processed to completion
and the loop continues unconditionally (exceptions are caught and logged,
`task_done` fires in a finally block). -/
def containerWorker (tasks : List (QueuedTask × GitEnv × SubprocOutcome)) :
    List (String × List Effect) :=
  tasks.map (fun x => (x.1.task_id, processTaskSubprocess x.2.1 x.2.2 x.1))

/-- One entry of `self.running_containers` (container_pool.py line 44):
the repository path and the last-used timestamp, in seconds. -/
structure RunningInfo where
  repo_path : String
  last_used : Nat
deriving Repr, DecidableEq

/-- The shared `running_containers` table: slot name to its entry. -/
abbrev RunningMap := List (String × RunningInfo)

/-- The idleness test of `_idle_cleanup_worker` (container_pool.py line
613): elapsed time since last use strictly exceeds the configured idle
timeout in minutes. -/
def isIdle (now timeoutMinutes : Nat) (info : RunningInfo) : Bool :=
  timeoutMinutes * 60 < now - info.last_used

/-- Embeds one sweep of `ContainerPool._idle_cleanup_worker`
(container_pool.py lines 601-625): collect the slots whose entry is idle,
run `_cleanup_container` for each (stop the container, remove the
workspace — the ExecutionRuntime collaborator calls at lines 628-661) and
delete their entries.  Returns the surviving table and the cleanup
effects in table order. -/
def idleSweepOnce (now timeoutMinutes : Nat) (running : RunningMap) :
    RunningMap × List Effect :=
  let idle := running.filter (fun p => isIdle now timeoutMinutes p.2)
  (running.filter (fun p => !(isIdle now timeoutMinutes p.2)),
   idle.flatMap (fun p => [Effect.stopContainer p.1, Effect.removeWorkspace p.1]))

/-- The effect of the whole task-processing activity of a slot worker on the
shared `running_containers` table, paired with the per-task effects:
`_container_worker` and `_process_task_subprocess` (container_pool.py
lines 134-331) contain no write to `self.running_containers` — the only
writes in the module are the deletions inside `_idle_cleanup_worker`
(line 619) — so the table passes through task processing unchanged. -/
def runPoolTasks (running : RunningMap)
    (tasks : List (QueuedTask × GitEnv × SubprocOutcome)) :
    RunningMap × List (String × List Effect) :=
  (running, containerWorker tasks)

/-- The keyword parameters accepted by `ClaudeDispatcher.execute_task`
(claude_dispatcher.py lines 35-42): `dev_name`, `workspace_name`,
`task_description`, `event`, and optional `devs_options`. -/
def executeTaskAcceptedKwargs : List String :=
  ["dev_name", "workspace_name", "task_description", "event", "devs_options"]

/-- The parameters of `execute_task` without a default value. -/
def executeTaskRequiredKwargs : List String :=
  ["dev_name", "workspace_name", "task_description", "event"]

/-- The keyword arguments `_process_task_subprocess` in cli/worker.py
passes to `execute_task` (worker.py lines 209-215): it passes `repo_path`
and no `workspace_name`. -/
def workerDispatchCallKwargs : List String :=
  ["dev_name", "repo_path", "task_description", "event", "devs_options"]

/-- Python keyword-argument binding: every provided keyword must name an
accepted parameter and every parameter without a default must be
provided; otherwise the call raises TypeError before the body runs. -/
def kwargsBindOk (provided accepted required : List String) : Bool :=
  provided.all (fun k => accepted.contains k)
    && required.all (fun k => provided.contains k)

/-- Embeds `TaskResult` (claude_dispatcher.py lines 18-22). -/
structure TaskResult where
  success : Bool
  output : String
  error : Option String := none
deriving Repr, DecidableEq

/-- The result dict built by `_process_task_subprocess` in cli/worker.py
(its `success`/`output`/`error` keys). -/
structure WorkerResult where
  success : Bool
  output : String
  error : Option String
deriving Repr, DecidableEq

/-- Embeds `_process_task_subprocess` (cli/worker.py lines 150-254): check
the repository path exists, then call
`claude_dispatcher.execute_task(dev_name=..., repo_path=...,
task_description=..., event=..., devs_options=...)`.  The keyword binding
against the `execute_task` signature decides whether the dispatcher body
(whose result is `dispatchResult`) is ever reached; a binding failure
raises TypeError, which the surrounding handler (lines 239-254) converts
into a failure dict.  A missing repository path likewise becomes a
failure dict via the same handler. -/
def processTaskSubprocessWorker (repoExists : Bool) (dispatchResult : TaskResult) :
    WorkerResult :=
  if repoExists then
    if kwargsBindOk workerDispatchCallKwargs executeTaskAcceptedKwargs
        executeTaskRequiredKwargs then
      if dispatchResult.success then
        { success := true, output := dispatchResult.output, error := none }
      else
        { success := false, output := dispatchResult.output, error := dispatchResult.error }
    else
      { success := false, output := "",
        error := some "Task processing failed: execute_task() got an unexpected keyword argument repo_path" }
  else
    { success := false, output := "",
      error := some "Task processing failed: Repository path does not exist" }

/-- The exit code of the `worker` command (cli/worker.py line 128):
exit 0 when the success field is true, else exit 1. -/
def workerExitCode (r : WorkerResult) : Nat :=
  if r.success then 0 else 1

/-- The prompt template of `ClaudeDispatcher._build_claude_prompt`
(claude_dispatcher.py lines 286-299), as a function of the options it
interpolates (contractions expanded to avoid quoting issues; the
structure and interpolation points are those of the source). -/
def claudePromptText (taskDescription : String) (o : DevsOptions) : String :=
  "You are an AI developer helping build a software project in a GitHub repository. You have been mentioned in a GitHub issue/PR and need to take action.\n\nYou should ensure you are on the latest "
    ++ o.default_branch ++ " branch if starting a fresh task (git pull origin "
    ++ o.default_branch
    ++ "), and generally \nwork on feature branches for changes. Submit your changes as a draft pull request when done (mention that it closes an issue number if it does).\n\nIf you need to ask for clarification, or if only asked for your thoughts, please respond with a comment on the issue/PR.\n\nYou should always comment back in any case. The `gh` CLI is available for GitHub operations, and you can use `git` too.\n\n"
    ++ o.prompt_extra ++ "\n\n" ++ taskDescription ++ "\n\n"

/-- Embeds `ClaudeDispatcher._build_claude_prompt` (claude_dispatcher.py
lines 265-305).  The template at line 288 interpolates
`devs_options.default_branch` (and at line 295 `devs_options.prompt_extra`)
unconditionally, so a `None` options argument raises AttributeError there;
the `if devs_options and devs_options.prompt_extra` guard only protects
the extra append at lines 301-303. -/
def buildClaudePrompt (taskDescription : String) (devsOptions : Option DevsOptions) :
    Except PyExn String :=
  match devsOptions with
  | none =>
    Except.error ⟨"AttributeError", "NoneType object has no attribute default_branch"⟩
  | some o =>
    let prompt := claudePromptText taskDescription o
    if o.prompt_extra ≠ "" then Except.ok (prompt ++ "\n" ++ o.prompt_extra ++ "\n")
    else Except.ok prompt

/-- A non-test event on the repository used by the concrete scenarios. -/
def sampleEvent : WebhookEvent :=
  { is_test := false, repo_full_name := "acme/solo" }

/-- First task of the concrete two-task scenario. -/
def soloTask1 : QueuedTask :=
  { task_id := "task-1", repo_name := "acme/solo", task_description := "first", event := sampleEvent }

/-- Second task of the concrete two-task scenario, same repository. -/
def soloTask2 : QueuedTask :=
  { task_id := "task-2", repo_name := "acme/solo", task_description := "second", event := sampleEvent }

/-- A git environment in which the repository exists and pulls cleanly. -/
def okGitEnv : GitEnv :=
  { repoExists := true, pullOk := true, cloneOk := true, devsYml := none }

/-- C1 (refuting evaluation): `queue_task` routes purely by shortest queue
and keeps no repository-affinity state.  On the default pool with empty
queues, the first task for repository acme/solo goes to slot eamonn, yet
the very next task for the same repository goes to slot harry, because
the eamonn queue is now longer — so a single-queue repository is not pinned
to one slot and no `repo_affinity_table` entry exists to consult. -/
theorem queue_task_ignores_repo_affinity :
    selectBestContainer ["eamonn", "harry", "darren"] (qsizeOf []) = some "eamonn" ∧
    (queueTask ["eamonn", "harry", "darren"] [] soloTask1).2 = [("eamonn", [soloTask1])] ∧
    selectBestContainer ["eamonn", "harry", "darren"]
      (qsizeOf (queueTask ["eamonn", "harry", "darren"] [] soloTask1).2) = some "harry" ∧
    "eamonn" ≠ "harry" := by
  decide

/-- C2: whenever the worker subprocess reaches the dispatcher call (the
repository path exists), the keyword set it passes fails to bind against
the signature of `ClaudeDispatcher.execute_task` (it passes `repo_path`,
which the signature does not accept), so the call raises TypeError, the
handler converts it into a failure result, and the worker exits 1: the
success branch is unreachable for every dispatcher outcome. -/
theorem worker_dispatch_call_always_fails (dispatchResult : TaskResult) :
    kwargsBindOk workerDispatchCallKwargs executeTaskAcceptedKwargs
      executeTaskRequiredKwargs = false ∧
    (processTaskSubprocessWorker true dispatchResult).success = false ∧
    workerExitCode (processTaskSubprocessWorker true dispatchResult) = 1 := by
  have hk : kwargsBindOk workerDispatchCallKwargs executeTaskAcceptedKwargs
      executeTaskRequiredKwargs = false := by decide
  refine ⟨hk, ?_, ?_⟩ <;>
    simp [processTaskSubprocessWorker, workerExitCode, hk]

/-- C3: tasks dequeued by one slot worker are handled strictly one at a
time in FIFO order: if task `t1` sits before task `t2` in
the queue of the slot, then the subprocess exchange of `t1` finishes
(trace position `2i+1`) before that of `t2` begins (trace position `2j`), and at no point of the trace
is more than one exchange in flight. -/
theorem slot_worker_fifo_serialized (qu : List QueuedTask) (i j : Nat)
    (t1 t2 : QueuedTask) (hij : i < j) (h1 : qu[i]? = some t1)
    (h2 : qu[j]? = some t2) :
    (workerTrace qu)[2 * i + 1]? = some (SlotEv.finish t1) ∧
    (workerTrace qu)[2 * j]? = some (SlotEv.start t2) ∧
    2 * i + 1 < 2 * j ∧
    ∀ n, inFlight ((workerTrace qu).take n) ≤ 1 :=
  ⟨workerTrace_get_finish qu i t1 h1, workerTrace_get_start qu j t2 h2,
   by omega, fun n => inFlight_take_le_one qu n⟩

/-- Witness for C3 at the concrete two-task queue. -/
theorem slot_worker_fifo_serialized_witness :
    0 < 1 ∧ ([soloTask1, soloTask2] : List QueuedTask)[0]? = some soloTask1 ∧
    ([soloTask1, soloTask2] : List QueuedTask)[1]? = some soloTask2 ∧
    (workerTrace [soloTask1, soloTask2])[1]? = some (SlotEv.finish soloTask1) ∧
    (workerTrace [soloTask1, soloTask2])[2]? = some (SlotEv.start soloTask2) :=
  ⟨by decide, by decide, by decide,
   (slot_worker_fifo_serialized [soloTask1, soloTask2] 0 1 soloTask1 soloTask2
     (by decide) (by decide) (by decide)).1,
   (slot_worker_fifo_serialized [soloTask1, soloTask2] 0 1 soloTask1 soloTask2
     (by decide) (by decide) (by decide)).2.1⟩

/-- C4: when the local copy exists but the pull fails, the directory is
removed and a fresh clone performed, and a successful clone surfaces no
error; when the local copy does not exist, a clone failure propagates to
the caller as an error (after attempting exactly the clone). -/
theorem ensure_repository_recovery (yml : Option YamlDoc) (pullOk : Bool) :
    ensureRepositoryCloned
        { repoExists := true, pullOk := false, cloneOk := true, devsYml := yml }
      = (Except.ok (parseDevsYml yml),
         [GitEffect.gitPull, GitEffect.rmtree, GitEffect.gitClone]) ∧
    exceptOk (ensureRepositoryCloned
        { repoExists := false, pullOk := pullOk, cloneOk := false, devsYml := yml }).1
      = false ∧
    (ensureRepositoryCloned
        { repoExists := false, pullOk := pullOk, cloneOk := false, devsYml := yml }).2
      = [GitEffect.gitClone] :=
  ⟨rfl, rfl, rfl⟩

/-- C5 (refuting evaluation): parsing a DEVS.yml that sets
`default_branch`, `prompt_extra` and `single_queue` yields options
carrying only the first two — the parse never consults the
`single_queue` key (dropping it changes nothing), and `DevsOptions` has
no such field; an absent file yields the two-field defaults. -/
theorem devs_yml_parse_ignores_single_queue :
    parseDevsYml (some [("default_branch", YamlVal.str "develop"),
                        ("prompt_extra", YamlVal.str "x"),
                        ("single_queue", YamlVal.bool true)])
      = { default_branch := "develop", prompt_extra := "x" } ∧
    parseDevsYml (some [("default_branch", YamlVal.str "develop"),
                        ("prompt_extra", YamlVal.str "x"),
                        ("single_queue", YamlVal.bool true)])
      = parseDevsYml (some [("default_branch", YamlVal.str "develop"),
                            ("prompt_extra", YamlVal.str "x")]) ∧
    parseDevsYml none = { default_branch := "main", prompt_extra := "" } := by
  decide

/-- C6: when the subprocess exchange times out, the parent kills the
subprocess, posts a timeout error through the notification path unless
the event is a test event, lets no exception escape the try-block, and
the slot worker goes on to process whatever tasks follow. -/
theorem subprocess_timeout_handled (g : GitEnv) (t : QueuedTask)
    (h : exceptOk (ensureRepositoryCloned g).1 = true) :
    (processTaskInner g SubprocOutcome.timeout t).2 = Except.ok () ∧
    processTaskSubprocess g SubprocOutcome.timeout t
      = Effect.killProcess :: postSubprocessError t timeoutErrorMessage ∧
    Effect.killProcess ∈ processTaskSubprocess g SubprocOutcome.timeout t ∧
    (t.event.is_test = false →
      Effect.postErrorToGitHub (errorComment timeoutErrorMessage)
        ∈ processTaskSubprocess g SubprocOutcome.timeout t) ∧
    (t.event.is_test = true →
      processTaskSubprocess g SubprocOutcome.timeout t = [Effect.killProcess]) ∧
    (∀ rest, containerWorker ((t, g, SubprocOutcome.timeout) :: rest)
        = (t.task_id, processTaskSubprocess g SubprocOutcome.timeout t)
          :: containerWorker rest) := by
  cases hE : (ensureRepositoryCloned g).1 with
  | error e => simp [exceptOk, hE] at h
  | ok opts =>
    have hInner : processTaskInner g SubprocOutcome.timeout t
        = (Effect.killProcess :: postSubprocessError t timeoutErrorMessage,
           Except.ok ()) := by
      simp [processTaskInner, hE]
    have hOuter : processTaskSubprocess g SubprocOutcome.timeout t
        = Effect.killProcess :: postSubprocessError t timeoutErrorMessage := by
      simp [processTaskSubprocess, hInner]
    refine ⟨by simp [hInner], hOuter, by simp [hOuter], ?_, ?_,
      fun rest => by simp [containerWorker]⟩
    · intro hnt
      simp [hOuter, postSubprocessError, hnt]
    · intro htest
      simp [hOuter, postSubprocessError, htest]

/-- Witness for C6: repository in good shape, non-test task. -/
theorem subprocess_timeout_handled_witness :
    exceptOk (ensureRepositoryCloned okGitEnv).1 = true ∧
    Effect.killProcess ∈ processTaskSubprocess okGitEnv SubprocOutcome.timeout soloTask1 ∧
    Effect.postErrorToGitHub (errorComment timeoutErrorMessage)
      ∈ processTaskSubprocess okGitEnv SubprocOutcome.timeout soloTask1 :=
  ⟨by decide,
   (subprocess_timeout_handled okGitEnv soloTask1 (by decide)).2.2.1,
   (subprocess_timeout_handled okGitEnv soloTask1 (by decide)).2.2.2.1 rfl⟩

/-- C7: a subprocess that exits 0 with stdout that fails JSON parsing is
treated as a failure rather than a crash: the parse-failure error message
quoting the 2000-character prefix of the raw stdout is posted (the
internal re-raise is absorbed by the catch-all handler), the quoted
prefix is bounded, and the slot worker goes on to the tasks that
follow. -/
theorem malformed_stdout_treated_as_failure (g : GitEnv) (t : QueuedTask)
    (raw stderrS : String)
    (h : exceptOk (ensureRepositoryCloned g).1 = true)
    (ht : t.event.is_test = false) :
    (processTaskInner g (SubprocOutcome.exited 0 ⟨raw, none⟩ stderrS) t).2
      = Except.error ⟨"Exception", "Subprocess JSON parsing failed"⟩ ∧
    Effect.postErrorToGitHub (errorComment (jsonParseFailMessage raw))
      ∈ processTaskSubprocess g (SubprocOutcome.exited 0 ⟨raw, none⟩ stderrS) t ∧
    (pyTruncate raw 2000).length ≤ 2000 ∧
    (∀ rest, containerWorker ((t, g, SubprocOutcome.exited 0 ⟨raw, none⟩ stderrS) :: rest)
        = (t.task_id, processTaskSubprocess g (SubprocOutcome.exited 0 ⟨raw, none⟩ stderrS) t)
          :: containerWorker rest) := by
  cases hE : (ensureRepositoryCloned g).1 with
  | error e => simp [exceptOk, hE] at h
  | ok opts =>
    have hInner : processTaskInner g (SubprocOutcome.exited 0 ⟨raw, none⟩ stderrS) t
        = (postSubprocessError t (jsonParseFailMessage raw),
           Except.error ⟨"Exception", "Subprocess JSON parsing failed"⟩) := by
      simp [processTaskInner, hE]
    have hOuter : processTaskSubprocess g (SubprocOutcome.exited 0 ⟨raw, none⟩ stderrS) t
        = postSubprocessError t (jsonParseFailMessage raw)
          ++ postSubprocessError t
              (genericFailMessage "Exception" "Subprocess JSON parsing failed") := by
      simp [processTaskSubprocess, hInner]
    refine ⟨by simp [hInner], ?_, ?_, fun rest => by simp [containerWorker]⟩
    · simp [hOuter, postSubprocessError, ht]
    · have : (String.mk (raw.data.take 2000)).length = (raw.data.take 2000).length := rfl
      rw [pyTruncate, this, List.length_take]
      exact Nat.min_le_left _ _

/-- Witness for C7 at concrete non-JSON stdout. -/
theorem malformed_stdout_treated_as_failure_witness :
    exceptOk (ensureRepositoryCloned okGitEnv).1 = true ∧
    soloTask1.event.is_test = false ∧
    Effect.postErrorToGitHub
        (errorComment (jsonParseFailMessage "Traceback: worker crashed before printing JSON"))
      ∈ processTaskSubprocess okGitEnv
          (SubprocOutcome.exited 0 ⟨"Traceback: worker crashed before printing JSON", none⟩ "")
          soloTask1 ∧
    (pyTruncate "Traceback: worker crashed before printing JSON" 2000).length ≤ 2000 :=
  ⟨by decide, by decide,
   (malformed_stdout_treated_as_failure okGitEnv soloTask1
     "Traceback: worker crashed before printing JSON" "" (by decide) (by decide)).2.1,
   (malformed_stdout_treated_as_failure okGitEnv soloTask1
     "Traceback: worker crashed before printing JSON" "" (by decide) (by decide)).2.2.1⟩

/-- C8 (refuting evaluation): the parent-side task processing never
records its slot in the shared running-containers table — starting from
an empty table, processing any sequence of tasks leaves it empty, so an
idle-reaper sweep at any time finds nothing and performs no stop or
workspace removal; the sweep machinery itself, had an entry been
recorded, would stop and remove an idle slot and reset it. -/
theorem running_containers_never_populated :
    (∀ (tasks : List (QueuedTask × GitEnv × SubprocOutcome)) (now : Nat),
      (runPoolTasks [] tasks).1 = [] ∧
      idleSweepOnce now 30 (runPoolTasks [] tasks).1 = ([], [])) ∧
    idleSweepOnce 3600 30 [("eamonn", { repo_path := "/cache/acme-solo", last_used := 0 })]
      = ([], [Effect.stopContainer "eamonn", Effect.removeWorkspace "eamonn"]) :=
  ⟨fun _tasks _now => ⟨rfl, rfl⟩, by decide⟩

/-- C9 (refuting evaluation): an absent `devs_options` is passed through
as None, and the prompt builder dereferences it before its None-guard, so
building the prompt raises AttributeError instead of behaving like the
default options — with which the very same call succeeds. -/
theorem absent_devs_options_errors :
    buildClaudePrompt "do the task" none
      = Except.error ⟨"AttributeError", "NoneType object has no attribute default_branch"⟩ ∧
    exceptOk (buildClaudePrompt "do the task" none) = false ∧
    exceptOk (buildClaudePrompt "do the task" (some {})) = true ∧
    ({} : DevsOptions).default_branch = "main" ∧
    ({} : DevsOptions).prompt_extra = "" := by
  refine ⟨rfl, rfl, ?_, rfl, rfl⟩
  simp [buildClaudePrompt, exceptOk]

/-- C10: a task queued over a non-empty pool goes to a slot whose queue
size is minimal among all configured slots, and among the minimal ones to
the first in the iteration order of the configured pool list: the chosen
slot is the first list element whose queue size equals the chosen
minimum, and the task is enqueued exactly there. -/
theorem queue_task_selects_first_shortest (pool : List String) (qs : QueuesMap)
    (t : QueuedTask) (hne : pool ≠ []) :
    ∃ c, selectBestContainer pool (qsizeOf qs) = some c ∧
      queueTask pool qs t = (true, enqueueTask qs c t) ∧
      c ∈ pool ∧
      (∀ d ∈ pool, qsizeOf qs c ≤ qsizeOf qs d) ∧
      pool.find? (fun d => qsizeOf qs d == qsizeOf qs c) = some c := by
  cases pool with
  | nil => exact absurd rfl hne
  | cons p rest =>
    refine ⟨best2 (qsizeOf qs) p rest, selectBestContainer_cons _ _ _, ?_,
      best2_mem _ _ _, best2_min _ _ _, best2_find _ _ _⟩
    unfold queueTask
    rw [selectBestContainer_cons]

/-- Witness for C10: three slots, one queue pre-filled, harry and darren
tied at zero — the task goes to harry, the first of the tied pair. -/
theorem queue_task_selects_first_shortest_witness :
    (["eamonn", "harry", "darren"] : List String) ≠ [] ∧
    (∃ c, selectBestContainer ["eamonn", "harry", "darren"]
            (qsizeOf [("eamonn", [soloTask1])]) = some c ∧
      queueTask ["eamonn", "harry", "darren"] [("eamonn", [soloTask1])] soloTask2
        = (true, enqueueTask [("eamonn", [soloTask1])] c soloTask2) ∧
      c ∈ (["eamonn", "harry", "darren"] : List String) ∧
      (∀ d ∈ (["eamonn", "harry", "darren"] : List String),
        qsizeOf [("eamonn", [soloTask1])] c ≤ qsizeOf [("eamonn", [soloTask1])] d) ∧
      (["eamonn", "harry", "darren"] : List String).find?
          (fun d => qsizeOf [("eamonn", [soloTask1])] d
            == qsizeOf [("eamonn", [soloTask1])] c) = some c) :=
  ⟨by decide,
   queue_task_selects_first_shortest ["eamonn", "harry", "darren"]
     [("eamonn", [soloTask1])] soloTask2 (by decide)⟩

end DevsWebhook
